import Mathlib

/-!
# Verification of the Challenge 1a PDF structure extractor

Shallow embedding of `Challenge_1a/process_pdfs.py` (PDFProcessor and the
batch driver) and proofs of the specified properties.

Modelling conventions:
* Python floats (font sizes, thresholds, bounding boxes, elapsed times) are
  modelled as rationals `ℚ`; the arithmetic the program performs on them
  (`*1.2`, `*1.5`, `*0.8`, averaging) is exact in this model.
* Python ints are `Int` where they are page numbers or counts coming from
  the decoder, and `Nat` for style-flag bitmasks and heading levels.
* The external PyMuPDF decoder is modelled by the data it yields: a document
  is its metadata dictionary, a list of per-page decode results (each page
  either yields its block list or raises, modelled by `Except String`), and
  a table-of-contents result.  Opening a document is likewise an
  `Except String PdfDoc` input to the extractor.
* Wall-clock readings (`elapsed`, `timestamp`) and the library version are
  inputs threaded through the extractor, since the claims quantify over them.
-/

namespace PdfProc

/-- A text span as produced by `page.get_text("dict")`: the fields the
program reads (`text`, `size`, `flags`, `font`). -/
structure Span where
  text : String
  size : ℚ
  flags : Nat
  font : String
  deriving DecidableEq, Repr

/-- A bounding box `(x0, y0, x1, y1)`. -/
structure BBox where
  x0 : ℚ
  y0 : ℚ
  x1 : ℚ
  y1 : ℚ
  deriving DecidableEq, Repr

/-- A page-level block from the decoder: `type == 0` text blocks carry lines
of spans, `type == 1` image blocks carry optional pixel dimensions (the
program reads them with `block.get(..., 0)`).  Both carry a bounding box.
Blocks with other type tags are ignored by the program and not modelled. -/
inductive Block where
  | text (lines : List (List Span)) (bbox : BBox)
  | image (width height : Option Int) (bbox : BBox)
  deriving DecidableEq, Repr

/-- The dictionary returned by `analyze_font_statistics`.  The degenerate
(zero spans) return value omits the `max_size` and `bold_sizes` keys, hence
those fields are `Option`s. -/
structure FontStats where
  avg_size : ℚ
  heading_threshold : ℚ
  large_heading_threshold : ℚ
  max_size : Option ℚ
  bold_sizes : Option (List ℚ)
  deriving DecidableEq, Repr

/-- All spans of a page, in block / line / span encounter order, restricted
to text blocks — the traversal order of `analyze_font_statistics`. -/
def pageSpans (blocks : List Block) : List Span :=
  (blocks.map fun b =>
    match b with
    | .text lines _ => lines.flatten
    | .image _ _ _ => []).flatten

/-- The page prefix sampled by `analyze_font_statistics`:
`sample_pages = min(sample_pages, doc.page_count)` leading pages. -/
def sampledPages (pages : List (List Block)) (samplePages : Nat) :
    List (List Block) :=
  pages.take (min samplePages pages.length)

/-- `font_sizes`: every sampled span size in encounter order. -/
def collectedSizes (pages : List (List Block)) (samplePages : Nat) : List ℚ :=
  ((sampledPages pages samplePages).map pageSpans).flatten.map Span.size

/-- `bold_sizes`: sizes of sampled spans whose flags have bit 4 set. -/
def collectedBoldSizes (pages : List (List Block)) (samplePages : Nat) :
    List ℚ :=
  (((sampledPages pages samplePages).map pageSpans).flatten.filter
    fun s => s.flags &&& 16 != 0).map Span.size

/-- `PDFProcessor.analyze_font_statistics`, over the decoded pages.  The
caller (the extractor) decodes the sampled prefix; a decode failure there
propagates as a top-level extraction failure, see `extractPdfStructure`. -/
def analyze_font_statistics (pages : List (List Block))
    (samplePages : Nat := 5) : FontStats :=
  let font_sizes := collectedSizes pages samplePages
  let bold_sizes := collectedBoldSizes pages samplePages
  if font_sizes = [] then
    { avg_size := 12, heading_threshold := 14, large_heading_threshold := 16,
      max_size := none, bold_sizes := none }
  else
    let avg_size := font_sizes.sum / (font_sizes.length : ℚ)
    { avg_size := avg_size
      heading_threshold := avg_size * 1.2
      large_heading_threshold := avg_size * 1.5
      max_size := font_sizes.max?
      bold_sizes := some bold_sizes }

/-- `PDFProcessor.classify_text_type`: classify a (primary) span against the
font statistics, returning the type tag and heading level. -/
def classify_text_type (span : Span) (font_stats : FontStats) :
    String × Nat :=
  let size := span.size
  let is_bold := span.flags &&& 16 ≠ 0
  if size ≥ font_stats.large_heading_threshold then
    ("heading", 1)
  else if size ≥ font_stats.heading_threshold ∨
      (size > font_stats.avg_size ∧ is_bold) then
    ("heading", 2)
  else if size < font_stats.avg_size * 0.8 then
    ("footnote", 0)
  else
    ("paragraph", 0)

/-- The `"font"` sub-dictionary of an emitted section. -/
structure FontDesc where
  name : String
  size : ℚ
  flags : Nat
  color : Nat
  deriving DecidableEq, Repr

/-- One entry of `result["structure"]["sections"]`.  The `"level"` key is
present only for headings with positive level, hence an `Option`. -/
structure Section where
  type : String
  content : String
  page : Int
  bbox : BBox
  font : FontDesc
  level : Option Nat
  deriving DecidableEq, Repr

/-- One entry of `result["structure"]["outline"]`. -/
structure OutlineEntry where
  title : String
  level : Int
  page : Int
  deriving DecidableEq, Repr

/-- Python `str.strip()`: drop leading and trailing whitespace (defined by
structural recursion over the character list so that it evaluates inside
the kernel). -/
def pyStrip (s : String) : String :=
  ⟨((s.data.dropWhile Char.isWhitespace).reverse.dropWhile
      Char.isWhitespace).reverse⟩

/-- State of the one-pass scan of `_process_text_block`: collected text
parts, then `primary_size`, `primary_font`, `primary_flags`. -/
structure ScanState where
  parts : List String
  primary_size : ℚ
  primary_font : Option String
  primary_flags : Nat
  deriving DecidableEq, Repr

/-- One step of the span scan in `_process_text_block`: spans whose trimmed
text is empty are skipped entirely; otherwise the trimmed text is collected
and the primary-span triple is updated on a strict size increase. -/
def scanStep (st : ScanState) (sp : Span) : ScanState :=
  let t := pyStrip sp.text
  if t = "" then st
  else if sp.size > st.primary_size then
    { parts := st.parts ++ [t], primary_size := sp.size,
      primary_font := some sp.font, primary_flags := sp.flags }
  else
    { st with parts := st.parts ++ [t] }

/-- The full span scan, over all lines of the block in encounter order,
starting from `primary_size = 0`, `primary_font = None`, `primary_flags = 0`. -/
def scanBlock (lines : List (List Span)) : ScanState :=
  lines.flatten.foldl scanStep ⟨[], 0, none, 0⟩

/-- `PDFProcessor._process_text_block`: returns the section to append, or
`none` when the block is dropped (no non-empty span text). -/
def processTextBlock (lines : List (List Span)) (bbox : BBox)
    (page_num : Int) (font_stats : FontStats) : Option Section :=
  let st := scanBlock lines
  if st.parts = [] then none
  else
    let block_text := pyStrip (String.intercalate " " st.parts)
    if block_text = "" then none
    else
      -- classify_text_type never reads the font field of the primary span,
      -- so the None case of the source is collapsed to "" here
      let primary_span : Span :=
        { text := block_text, size := st.primary_size,
          flags := st.primary_flags, font := st.primary_font.getD "" }
      let tl := classify_text_type primary_span font_stats
      -- the section name is `primary_font or "unknown"`: the Python `or`
      -- falls back both on None and on the falsy empty string
      let fname := st.primary_font.getD ""
      some
        { type := tl.1
          content := block_text
          page := page_num
          bbox := bbox
          font := { name := if fname = "" then "unknown" else fname,
                    size := st.primary_size, flags := st.primary_flags,
                    color := 0 }
          level := if tl.1 = "heading" ∧ tl.2 > 0 then some tl.2 else none }

/-- `PDFProcessor._process_image_block`: the section appended for an image
block. -/
def processImageBlock (width height : Option Int) (bbox : BBox)
    (page_num : Int) : Section :=
  { type := "image"
    content := "[Image: width=" ++ toString (width.getD 0) ++ ", height=" ++
      toString (height.getD 0) ++ "]"
    page := page_num
    bbox := bbox
    font := { name := "image", size := 0, flags := 0, color := 0 }
    level := none }

/-- Dispatch of the block loop body in `extract_pdf_structure`: a text block
may or may not append a section, an image block always appends one. -/
def processBlock (b : Block) (page_num : Int) (font_stats : FontStats) :
    Option Section :=
  match b with
  | .text lines bbox => processTextBlock lines bbox page_num font_stats
  | .image w h bbox => some (processImageBlock w h bbox page_num)

/-- Sections contributed by one page: a page whose block decode raised
contributes nothing (the exception is caught, logged and the loop continues). -/
def pageSections (p : Except String (List Block)) (page_num : Int)
    (font_stats : FontStats) : List Section :=
  match p with
  | .error _ => []
  | .ok blocks => blocks.filterMap fun b => processBlock b page_num font_stats

/-- Sections contributed by a run of pages whose first page has 0-based
index `start` (page numbers passed to the block processors are 1-based). -/
def sectionsFrom (start : Nat) (pages : List (Except String (List Block)))
    (font_stats : FontStats) : List Section :=
  match pages with
  | [] => []
  | p :: rest =>
    pageSections p ((start + 1 : Nat) : Int) font_stats ++
      sectionsFrom (start + 1) rest font_stats

/-- The metadata dictionary of an opened document, as exposed by the
decoder; the program reads every field with `metadata.get(key, "")`, so a
missing key is `none` here. -/
structure PdfMeta where
  title : Option String
  author : Option String
  creator : Option String
  subject : Option String
  keywords : Option String
  creationDate : Option String
  modDate : Option String
  deriving DecidableEq, Repr

/-- An opened document: its metadata, the per-page decode outcomes of
`page.get_text("dict")["blocks"]` (a page that raises is `.error`), and the
outcome of `doc.get_toc()` (entries are `(level, title, page)` triples). -/
structure PdfDoc where
  metadata : PdfMeta
  pages : List (Except String (List Block))
  toc : Except String (List (Int × String × Int))
  deriving Repr

/-- The input path, reduced to the two components the program reads:
`pdf_path.name` and `pdf_path.stem`. -/
structure FileName where
  name : String
  stem : String
  deriving DecidableEq, Repr

/-- The `"metadata"` object of a result.  The error fallback emits only
`{"pageCount": 0}`, the success path emits the full dictionary; these two
shapes are the constructors. -/
inductive ResultMeta where
  | full (title author creator subject keywords : String) (pageCount : Int)
      (creationDate modificationDate : String)
  | minimal (pageCount : Int)
  deriving DecidableEq, Repr

/-- The `"processing_info"` object; the `"error"` key exists only in the
fallback result. -/
structure ProcessingInfo where
  processing_time : ℚ
  timestamp : String
  library_version : String
  total_sections : Int
  error : Option String
  deriving DecidableEq, Repr

/-- The `"structure"` object. -/
structure StructureData where
  sections : List Section
  outline : List OutlineEntry
  deriving DecidableEq, Repr

/-- The top-level result dictionary of `extract_pdf_structure`. -/
structure DocumentResult where
  filename : String
  metadata : ResultMeta
  struct : StructureData
  processing_info : ProcessingInfo
  deriving DecidableEq, Repr

/-- Python `round(x, 3)` on the elapsed seconds (rounding mode immaterial to
every claim; modelled as rounding half away from zero at 3 decimals). -/
def round3 (q : ℚ) : ℚ := (round (q * 1000) : ℤ) / 1000

/-- Decode a prefix of pages in order, failing with the first raised error:
the page traversal of `analyze_font_statistics`, which runs inside the
top-level `try` of `extract_pdf_structure` and hence aborts the whole
extraction on a decode failure. -/
def decodeSampled : List (Except String (List Block)) →
    Except String (List (List Block))
  | [] => .ok []
  | p :: rest => do
    let bs ← p
    let others ← decodeSampled rest
    return bs :: others

/-- The minimal valid fallback result returned when anything inside the
top-level `try` of `extract_pdf_structure` raises. -/
def fallbackResult (path : FileName) (library_version timestamp : String)
    (elapsed : ℚ) (e : String) : DocumentResult :=
  { filename := path.name
    metadata := .minimal 0
    struct := { sections := [], outline := [] }
    processing_info :=
      { processing_time := elapsed, timestamp := timestamp,
        library_version := library_version, total_sections := 0,
        error := some e } }

/-- `PDFProcessor.extract_pdf_structure`.  `opened` is the outcome of
`fitz.open`; `elapsed` and `timestamp` are the wall-clock readings; the
decode of the sampled page prefix feeds `analyze_font_statistics` and its
failure aborts extraction (the only other statements inside the top-level
`try` that can raise are caught by the inner per-outline and per-page
handlers). -/
def extractPdfStructure (path : FileName) (library_version : String)
    (timestamp : String) (elapsed : ℚ) (opened : Except String PdfDoc) :
    DocumentResult :=
  match opened with
  | .error e => fallbackResult path library_version timestamp elapsed e
  | .ok doc =>
    match decodeSampled (doc.pages.take (min 5 doc.pages.length)) with
    | .error e => fallbackResult path library_version timestamp elapsed e
    | .ok sampled =>
      let font_stats := analyze_font_statistics sampled 5
      let title0 := doc.metadata.title.getD ""
      let outline : List OutlineEntry :=
        match doc.toc with
        | .error _ => []
        | .ok items => items.map fun it =>
            { title := it.2.1, level := it.1, page := it.2.2 }
      let sections := sectionsFrom 0 doc.pages font_stats
      { filename := path.name
        metadata := .full
          (if title0 = "" then path.stem else title0)
          (doc.metadata.author.getD "") (doc.metadata.creator.getD "")
          (doc.metadata.subject.getD "") (doc.metadata.keywords.getD "")
          (doc.pages.length : Int)
          (doc.metadata.creationDate.getD "") (doc.metadata.modDate.getD "")
        struct := { sections := sections, outline := outline }
        processing_info :=
          { processing_time := round3 elapsed, timestamp := timestamp,
            library_version := library_version,
            total_sections := (sections.length : Int), error := none } }

/-- The sequential fallback loop of `process_pdfs`: fold over the files,
incrementing the tally on each successful `process_single_pdf`.  `ok f`
abstracts the outcome of processing and serializing file `f` (deterministic
per file: no shared state between files). -/
def sequentialTally {α : Type} (ok : α → Bool) (files : List α) : Nat :=
  files.foldl (fun n f => if ok f then n + 1 else n) 0

/-- The pooled path of `process_pdfs`: one task per file submitted to the
worker pool, tasks independent, results collected in submission order and
counted.  With per-file outcomes `ok f`, the tally is the number of
successful files. -/
def pooledTally {α : Type} (ok : α → Bool) (files : List α) : Nat :=
  files.countP ok

/-- The success tally computed by `process_pdfs` on a discovered file list:
empty input returns early with no tally, a single file is processed
directly, multiple files go through the pool when its construction
succeeds (`pool_ok`) and through the sequential fallback otherwise. -/
def processPdfsTally {α : Type} (ok : α → Bool) (files : List α)
    (pool_ok : Bool) : Nat :=
  match files with
  | [] => 0
  | [f] => if ok f then 1 else 0
  | _ :: _ :: _ =>
    if pool_ok then pooledTally ok files else sequentialTally ok files

/-! ## The output artifact

`process_single_pdf` serializes the result dictionary with `json.dump`.
The artifact is modelled at the level of the JSON document it contains:
strings, integers, (finite) decimal numbers, arrays and key-ordered
objects.  `toJson` mirrors exactly the dictionary shapes the extractor
builds (key insertion order included); `fromJson` re-parses such an
artifact back into a `DocumentResult`. -/

/-- A JSON value.  Python serializes `int` and `float` differently and
`json.load` recovers the distinction, so the model keeps both. -/
inductive Json where
  | str (s : String)
  | int (n : Int)
  | num (q : ℚ)
  | arr (xs : List Json)
  | obj (fields : List (String × Json))

/-- Serialize a font descriptor. -/
def FontDesc.toJson (f : FontDesc) : Json :=
  .obj [("name", .str f.name), ("size", .num f.size),
    ("flags", .int (f.flags : Int)), ("color", .int (f.color : Int))]

/-- Parse a font descriptor. -/
def FontDesc.fromJson : Json → Option FontDesc
  | .obj [("name", .str n), ("size", .num s), ("flags", .int fl),
      ("color", .int c)] =>
    match fl.toNat', c.toNat' with
    | some fln, some cn => some ⟨n, s, fln, cn⟩
    | _, _ => none
  | _ => none

/-- Serialize a bounding box (a 4-tuple becomes a JSON array). -/
def BBox.toJson (b : BBox) : Json :=
  .arr [.num b.x0, .num b.y0, .num b.x1, .num b.y1]

/-- Parse a bounding box. -/
def BBox.fromJson : Json → Option BBox
  | .arr [.num a, .num b, .num c, .num d] => some ⟨a, b, c, d⟩
  | _ => none

/-- Serialize a section; the `"level"` key is appended only when present,
as in `_process_text_block`. -/
def Section.toJson (s : Section) : Json :=
  .obj ([("type", .str s.type), ("content", .str s.content),
    ("page", .int s.page), ("bbox", s.bbox.toJson),
    ("font", s.font.toJson)] ++
    (match s.level with
     | none => []
     | some l => [("level", .int (l : Int))]))

/-- Parse a section (with or without the trailing `"level"` key). -/
def Section.fromJson : Json → Option Section
  | .obj [("type", .str t), ("content", .str c), ("page", .int p),
      ("bbox", bj), ("font", fj)] =>
    match BBox.fromJson bj, FontDesc.fromJson fj with
    | some bb, some fd => some ⟨t, c, p, bb, fd, none⟩
    | _, _ => none
  | .obj [("type", .str t), ("content", .str c), ("page", .int p),
      ("bbox", bj), ("font", fj), ("level", .int l)] =>
    match BBox.fromJson bj, FontDesc.fromJson fj, l.toNat' with
    | some bb, some fd, some ln => some ⟨t, c, p, bb, fd, some ln⟩
    | _, _, _ => none
  | _ => none

/-- Serialize an outline entry. -/
def OutlineEntry.toJson (o : OutlineEntry) : Json :=
  .obj [("title", .str o.title), ("level", .int o.level),
    ("page", .int o.page)]

/-- Parse an outline entry. -/
def OutlineEntry.fromJson : Json → Option OutlineEntry
  | .obj [("title", .str t), ("level", .int l), ("page", .int p)] =>
    some ⟨t, l, p⟩
  | _ => none

/-- Serialize the metadata object (its two shapes). -/
def ResultMeta.toJson : ResultMeta → Json
  | .full t a c s k pc cd md =>
    .obj [("title", .str t), ("author", .str a), ("creator", .str c),
      ("subject", .str s), ("keywords", .str k), ("pageCount", .int pc),
      ("creationDate", .str cd), ("modificationDate", .str md)]
  | .minimal pc => .obj [("pageCount", .int pc)]

/-- Parse the metadata object. -/
def ResultMeta.fromJson : Json → Option ResultMeta
  | .obj [("title", .str t), ("author", .str a), ("creator", .str c),
      ("subject", .str s), ("keywords", .str k), ("pageCount", .int pc),
      ("creationDate", .str cd), ("modificationDate", .str md)] =>
    some (.full t a c s k pc cd md)
  | .obj [("pageCount", .int pc)] => some (.minimal pc)
  | _ => none

/-- Serialize the processing-info object; `"error"` is appended only in the
fallback shape. -/
def ProcessingInfo.toJson (p : ProcessingInfo) : Json :=
  .obj ([("processing_time", .num p.processing_time),
    ("timestamp", .str p.timestamp),
    ("library_version", .str p.library_version),
    ("total_sections", .int p.total_sections)] ++
    (match p.error with
     | none => []
     | some e => [("error", .str e)]))

/-- Parse the processing-info object. -/
def ProcessingInfo.fromJson : Json → Option ProcessingInfo
  | .obj [("processing_time", .num pt), ("timestamp", .str ts),
      ("library_version", .str lv), ("total_sections", .int n)] =>
    some ⟨pt, ts, lv, n, none⟩
  | .obj [("processing_time", .num pt), ("timestamp", .str ts),
      ("library_version", .str lv), ("total_sections", .int n),
      ("error", .str e)] =>
    some ⟨pt, ts, lv, n, some e⟩
  | _ => none

/-- Parse a homogeneous JSON array elementwise. -/
def decodeList {α : Type} (f : Json → Option α) : List Json → Option (List α)
  | [] => some []
  | j :: rest =>
    match f j, decodeList f rest with
    | some a, some as => some (a :: as)
    | _, _ => none

/-- Serialize the structure object. -/
def StructureData.toJson (s : StructureData) : Json :=
  .obj [("sections", .arr (s.sections.map Section.toJson)),
    ("outline", .arr (s.outline.map OutlineEntry.toJson))]

/-- Parse the structure object. -/
def StructureData.fromJson : Json → Option StructureData
  | .obj [("sections", .arr sj), ("outline", .arr oj)] =>
    match decodeList Section.fromJson sj,
        decodeList OutlineEntry.fromJson oj with
    | some ss, some os => some ⟨ss, os⟩
    | _, _ => none
  | _ => none

/-- Serialize a whole result: the JSON document `json.dump` writes. -/
def DocumentResult.toJson (r : DocumentResult) : Json :=
  .obj [("filename", .str r.filename), ("metadata", r.metadata.toJson),
    ("structure", r.struct.toJson),
    ("processing_info", r.processing_info.toJson)]

/-- Re-parse an output artifact. -/
def DocumentResult.fromJson : Json → Option DocumentResult
  | .obj [("filename", .str fn), ("metadata", mj), ("structure", sj),
      ("processing_info", pj)] =>
    match ResultMeta.fromJson mj, StructureData.fromJson sj,
        ProcessingInfo.fromJson pj with
    | some m, some s, some p => some ⟨fn, m, s, p⟩
    | _, _, _ => none
  | _ => none

/-! ## Verified properties -/

/-- C1: with font statistics of average size `a`, heading threshold
`a * 1.2` and large-heading threshold `a * 1.5`, `classify_text_type`
applies exactly the cascade — Heading 1 when `s ≥ a * 1.5`, else Heading 2
when `s ≥ a * 1.2` or (`s > a` and bold), else Footnote when
`s < a * 0.8`, else Paragraph — and in particular, for `a = 10`: size 16
gives Heading 1, size 13 Heading 2, size 11 bold Heading 2, size 11
non-bold Paragraph, size 7 Footnote. -/
theorem claim_C1 :
    (∀ (a : ℚ) (m : Option ℚ) (bs : Option (List ℚ)) (sp : Span),
      classify_text_type sp ⟨a, a * 1.2, a * 1.5, m, bs⟩ =
        (if sp.size ≥ a * 1.5 then ("heading", 1)
         else if sp.size ≥ a * 1.2 ∨ (sp.size > a ∧ sp.flags &&& 16 ≠ 0)
           then ("heading", 2)
         else if sp.size < a * 0.8 then ("footnote", 0)
         else ("paragraph", 0))) ∧
    classify_text_type ⟨"t", 16, 0, "F"⟩ ⟨10, 10 * 1.2, 10 * 1.5, none, none⟩
      = ("heading", 1) ∧
    classify_text_type ⟨"t", 13, 0, "F"⟩ ⟨10, 10 * 1.2, 10 * 1.5, none, none⟩
      = ("heading", 2) ∧
    classify_text_type ⟨"t", 11, 16, "F"⟩ ⟨10, 10 * 1.2, 10 * 1.5, none, none⟩
      = ("heading", 2) ∧
    classify_text_type ⟨"t", 11, 0, "F"⟩ ⟨10, 10 * 1.2, 10 * 1.5, none, none⟩
      = ("paragraph", 0) ∧
    classify_text_type ⟨"t", 7, 0, "F"⟩ ⟨10, 10 * 1.2, 10 * 1.5, none, none⟩
      = ("footnote", 0) := by
  refine ⟨fun a m bs sp => rfl, ?_, ?_, ?_, ?_, ?_⟩ <;>
    norm_num [classify_text_type]

/-- C2: `analyze_font_statistics` samples exactly
`min sample_page_count total_pages` pages; with at least one sampled span
the returned statistics have `avg_size` the arithmetic mean of the sampled
span sizes, `heading_threshold = avg_size * 1.2` and
`large_heading_threshold = avg_size * 1.5` exactly; with zero sampled
spans it returns the fixed defaults `{12, 14, 16}` (and, being a total
function, never fails). -/
theorem claim_C2 (pages : List (List Block)) (n : Nat) :
    (sampledPages pages n).length = min n pages.length ∧
    (collectedSizes pages n ≠ [] →
      (analyze_font_statistics pages n).avg_size =
          (collectedSizes pages n).sum /
            ((collectedSizes pages n).length : ℚ) ∧
      (analyze_font_statistics pages n).heading_threshold =
          (analyze_font_statistics pages n).avg_size * 1.2 ∧
      (analyze_font_statistics pages n).large_heading_threshold =
          (analyze_font_statistics pages n).avg_size * 1.5) ∧
    (collectedSizes pages n = [] →
      analyze_font_statistics pages n =
        ⟨12, 14, 16, none, none⟩) := by
  refine ⟨?_, fun h => ?_, fun h => ?_⟩
  · simp only [sampledPages, List.length_take]
    omega
  · simp [analyze_font_statistics, h]
  · simp [analyze_font_statistics, h]

/-- C2 witness: a one-span document realizes the mean/threshold equations,
and the empty document realizes the default fallback. -/
theorem claim_C2_witness :
    ((analyze_font_statistics
        [[Block.text [[⟨"x", 10, 0, "F"⟩]] ⟨0, 0, 1, 1⟩]] 5).heading_threshold
      = (analyze_font_statistics
        [[Block.text [[⟨"x", 10, 0, "F"⟩]] ⟨0, 0, 1, 1⟩]] 5).avg_size * 1.2) ∧
    analyze_font_statistics ([] : List (List Block)) 5 =
      ⟨12, 14, 16, none, none⟩ :=
  ⟨((claim_C2 [[Block.text [[⟨"x", 10, 0, "F"⟩]] ⟨0, 0, 1, 1⟩]] 5).2.1
      (by decide)).2.1,
    (claim_C2 [] 5).2.2 (by decide)⟩

/-- C3: `extract_pdf_structure` is a total function and on any top-level
failure — an open failure, or a decode failure while sampling fonts —
returns the fallback result: `pageCount = 0`, empty section and outline
sequences, and the error message in the processing metadata. -/
theorem claim_C3 :
    (∀ (path : FileName) (lv ts : String) (el : ℚ) (e : String),
      extractPdfStructure path lv ts el (.error e) =
        fallbackResult path lv ts el e) ∧
    (∀ (path : FileName) (lv ts : String) (el : ℚ) (doc : PdfDoc)
        (e : String),
      decodeSampled (doc.pages.take (min 5 doc.pages.length)) = .error e →
      extractPdfStructure path lv ts el (.ok doc) =
        fallbackResult path lv ts el e) ∧
    (∀ (path : FileName) (lv ts : String) (el : ℚ) (e : String),
      fallbackResult path lv ts el e =
        { filename := path.name
          metadata := .minimal 0
          struct := { sections := [], outline := [] }
          processing_info :=
            { processing_time := el, timestamp := ts, library_version := lv,
              total_sections := 0, error := some e } }) := by
  refine ⟨fun path lv ts el e => rfl, fun path lv ts el doc e h => ?_,
    fun path lv ts el e => rfl⟩
  simp [extractPdfStructure, h]

/-- C3 witness: a document whose first page fails to decode produces the
fallback result. -/
theorem claim_C3_witness :
    extractPdfStructure ⟨"a.pdf", "a"⟩ "v" "t" 2
        (.ok ⟨⟨none, none, none, none, none, none, none⟩,
          [.error "boom"], .ok []⟩) =
      fallbackResult ⟨"a.pdf", "a"⟩ "v" "t" 2 "boom" :=
  claim_C3.2.1 ⟨"a.pdf", "a"⟩ "v" "t" 2
    ⟨⟨none, none, none, none, none, none, none⟩, [.error "boom"], .ok []⟩
    "boom" rfl

/-- Splitting the page loop: sections of an appended run of pages. -/
theorem sectionsFrom_append (k : Nat)
    (xs ys : List (Except String (List Block))) (fs : FontStats) :
    sectionsFrom k (xs ++ ys) fs =
      sectionsFrom k xs fs ++ sectionsFrom (k + xs.length) ys fs := by
  induction xs generalizing k with
  | nil => simp [sectionsFrom]
  | cons p rest ih =>
    simp only [List.cons_append, sectionsFrom, List.length_cons,
      List.append_assoc, List.append_eq]
    rw [ih, show k + 1 + rest.length = k + (rest.length + 1) by omega]

/-- C5: a page whose decode fails contributes nothing, while every element
collected from earlier pages of the document stays in the result unchanged
and extraction continues with the following pages; the extractor's section
sequence is exactly the page-loop accumulation `sectionsFrom 0`. -/
theorem claim_C5 :
    (∀ (k : Nat) (pre : List (Except String (List Block))) (e : String)
        (rest : List (Except String (List Block))) (fs : FontStats),
      sectionsFrom k (pre ++ .error e :: rest) fs =
        sectionsFrom k pre fs ++
          sectionsFrom (k + pre.length + 1) rest fs) ∧
    (∀ (path : FileName) (lv ts : String) (el : ℚ) (doc : PdfDoc)
        (sampled : List (List Block)),
      decodeSampled (doc.pages.take (min 5 doc.pages.length)) =
          .ok sampled →
      (extractPdfStructure path lv ts el (.ok doc)).struct.sections =
        sectionsFrom 0 doc.pages (analyze_font_statistics sampled 5)) := by
  constructor
  · intro k pre e rest fs
    rw [sectionsFrom_append]
    simp [sectionsFrom, pageSections, Nat.add_assoc]
  · intro path lv ts el doc sampled h
    simp [extractPdfStructure, h]

/-- C5 witness: instantiation on a concrete three-page document whose
middle page fails, showing the first page's section is preserved. -/
theorem claim_C5_witness :
    sectionsFrom 0
        [.ok [Block.image none none ⟨0, 0, 1, 1⟩], .error "bad",
          .ok [Block.image none none ⟨0, 0, 2, 2⟩]]
        ⟨12, 14, 16, none, none⟩ =
      sectionsFrom 0 [.ok [Block.image none none ⟨0, 0, 1, 1⟩]]
          ⟨12, 14, 16, none, none⟩ ++
        sectionsFrom 2 [.ok [Block.image none none ⟨0, 0, 2, 2⟩]]
          ⟨12, 14, 16, none, none⟩ ∧
    (extractPdfStructure ⟨"a.pdf", "a"⟩ "v" "t" 0
        (.ok ⟨⟨none, none, none, none, none, none, none⟩, [.ok []],
          .ok []⟩)).struct.sections =
      sectionsFrom 0 [.ok []] (analyze_font_statistics [[]] 5) :=
  ⟨claim_C5.1 0 [.ok [Block.image none none ⟨0, 0, 1, 1⟩]] "bad"
      [.ok [Block.image none none ⟨0, 0, 2, 2⟩]] ⟨12, 14, 16, none, none⟩,
    claim_C5.2 ⟨"a.pdf", "a"⟩ "v" "t" 0
      ⟨⟨none, none, none, none, none, none, none⟩, [.ok []], .ok []⟩
      [[]] rfl⟩

/-- Folding the success counter equals counting successes. -/
theorem foldl_tally_eq_countP {α : Type} (ok : α → Bool) (l : List α)
    (n : Nat) :
    l.foldl (fun n f => if ok f then n + 1 else n) n = n + l.countP ok := by
  induction l generalizing n with
  | nil => simp
  | cons a t ih =>
    by_cases h : ok a
    · simp [h, ih, List.countP_cons]
      omega
    · simp [h, ih, List.countP_cons]

/-- C6: when worker-pool construction fails, `process_pdfs` runs the same
input list through the sequential loop, and its success tally equals the
tally of the non-pooled sequential path on identical inputs (which is also
the tally the pooled path yields). -/
theorem claim_C6 (α : Type) (ok : α → Bool) (files : List α) :
    processPdfsTally ok files false = sequentialTally ok files ∧
    pooledTally ok files = sequentialTally ok files := by
  have hseq : sequentialTally ok files = files.countP ok := by
    simpa using foldl_tally_eq_countP ok files 0
  refine ⟨?_, by simp [pooledTally, hseq]⟩
  match files with
  | [] => rfl
  | [f] => simp [processPdfsTally, sequentialTally]
  | f :: g :: rest => simp [processPdfsTally]

/-- C7: a text block whose concatenated, trimmed span text is empty is
silently dropped — `_process_text_block` returns no section. -/
theorem claim_C7 (lines : List (List Span)) (bbox : BBox) (pn : Int)
    (fs : FontStats)
    (h : pyStrip (String.intercalate " " (scanBlock lines).parts) = "") :
    processTextBlock lines bbox pn fs = none := by
  by_cases hp : (scanBlock lines).parts = []
  · simp [processTextBlock, hp]
  · simp [processTextBlock, hp, h]

/-- C7 witness: a block holding a single whitespace-only span yields no
section. -/
theorem claim_C7_witness :
    processTextBlock [[⟨" ", 12, 0, "F"⟩]] ⟨0, 0, 1, 1⟩ 1
      ⟨12, 14, 16, none, none⟩ = none :=
  claim_C7 [[⟨" ", 12, 0, "F"⟩]] ⟨0, 0, 1, 1⟩ 1 ⟨12, 14, 16, none, none⟩
    (by decide)

/-- C8: appending an image block to a page's block list appends exactly one
`image` section, for every font statistics value: content synthesized from
the (defaulted) width and height, the block's bounding box, and the
sentinel font descriptor `name="image", size=0, flags=0`. -/
theorem claim_C8 (w h : Option Int) (bbox : BBox) (pn : Int)
    (fs : FontStats) (blocks : List Block) :
    pageSections (.ok (blocks ++ [.image w h bbox])) pn fs =
      pageSections (.ok blocks) pn fs ++
        [{ type := "image"
           content := "[Image: width=" ++ toString (w.getD 0) ++
             ", height=" ++ toString (h.getD 0) ++ "]"
           page := pn
           bbox := bbox
           font := { name := "image", size := 0, flags := 0, color := 0 }
           level := none }] := by
  simp [pageSections, processBlock, processImageBlock, List.filterMap_append]

/-- Projection of the title field out of a result metadata object (absent
in the minimal fallback shape). -/
def ResultMeta.titleOf : ResultMeta → Option String
  | .full t _ _ _ _ _ _ _ => some t
  | .minimal _ => none

/-- C10: for a successfully opened document, an absent or empty metadata
title falls back to the filename stem, while a present non-empty title is
used verbatim. -/
theorem claim_C10 (path : FileName) (lv ts : String) (el : ℚ)
    (doc : PdfDoc) (sampled : List (List Block))
    (hok : decodeSampled (doc.pages.take (min 5 doc.pages.length)) =
      .ok sampled) :
    ((doc.metadata.title = none ∨ doc.metadata.title = some "") →
      (extractPdfStructure path lv ts el (.ok doc)).metadata.titleOf =
        some path.stem) ∧
    (∀ s, doc.metadata.title = some s → s ≠ "" →
      (extractPdfStructure path lv ts el (.ok doc)).metadata.titleOf =
        some s) := by
  constructor
  · rintro (h | h)
    · simp [extractPdfStructure, hok, h, ResultMeta.titleOf]
    · simp [extractPdfStructure, hok, h, ResultMeta.titleOf]
  · intro s hs hne
    simp [extractPdfStructure, hok, hs, hne, ResultMeta.titleOf]

/-- C10 witness: a title-less document gets the stem `"b"`; a document
titled `"T"` keeps it. -/
theorem claim_C10_witness :
    (extractPdfStructure ⟨"b.pdf", "b"⟩ "v" "t" 0
        (.ok ⟨⟨none, none, none, none, none, none, none⟩, [],
          .ok []⟩)).metadata.titleOf = some "b" ∧
    (extractPdfStructure ⟨"b.pdf", "b"⟩ "v" "t" 0
        (.ok ⟨⟨some "T", none, none, none, none, none, none⟩, [],
          .ok []⟩)).metadata.titleOf = some "T" :=
  ⟨(claim_C10 ⟨"b.pdf", "b"⟩ "v" "t" 0
      ⟨⟨none, none, none, none, none, none, none⟩, [], .ok []⟩ [] rfl).1
      (Or.inl rfl),
    (claim_C10 ⟨"b.pdf", "b"⟩ "v" "t" 0
      ⟨⟨some "T", none, none, none, none, none, none⟩, [], .ok []⟩ [] rfl).2
      "T" rfl (by decide)⟩

/-- Font descriptors survive the artifact round trip. -/
theorem fontDesc_fromJson_toJson (f : FontDesc) :
    FontDesc.fromJson f.toJson = some f := rfl

/-- Bounding boxes survive the artifact round trip. -/
theorem bbox_fromJson_toJson (b : BBox) :
    BBox.fromJson b.toJson = some b := rfl

/-- Sections survive the artifact round trip. -/
theorem section_fromJson_toJson (s : Section) :
    Section.fromJson s.toJson = some s := by
  obtain ⟨t, c, p, bb, fd, lv⟩ := s
  cases lv with
  | none => rfl
  | some l => rfl

/-- Outline entries survive the artifact round trip. -/
theorem outlineEntry_fromJson_toJson (o : OutlineEntry) :
    OutlineEntry.fromJson o.toJson = some o := rfl

/-- Result metadata (either shape) survives the artifact round trip. -/
theorem resultMeta_fromJson_toJson (m : ResultMeta) :
    ResultMeta.fromJson m.toJson = some m := by
  cases m with
  | full t a c s k pc cd md => rfl
  | minimal pc => rfl

/-- Processing info (with or without error) survives the round trip. -/
theorem processingInfo_fromJson_toJson (p : ProcessingInfo) :
    ProcessingInfo.fromJson p.toJson = some p := by
  obtain ⟨pt, ts, lv, n, err⟩ := p
  cases err with
  | none => rfl
  | some e => rfl

/-- Elementwise array decoding inverts elementwise encoding. -/
theorem decodeList_map {α : Type} (f : Json → Option α) (g : α → Json)
    (hfg : ∀ x, f (g x) = some x) :
    ∀ l : List α, decodeList f (l.map g) = some l
  | [] => rfl
  | a :: t => by
    simp [decodeList, hfg a, decodeList_map f g hfg t]

/-- The structure object survives the round trip. -/
theorem structureData_fromJson_toJson (s : StructureData) :
    StructureData.fromJson s.toJson = some s := by
  obtain ⟨ss, os⟩ := s
  simp [StructureData.toJson, StructureData.fromJson,
    decodeList_map Section.fromJson Section.toJson section_fromJson_toJson
      ss,
    decodeList_map OutlineEntry.fromJson OutlineEntry.toJson
      outlineEntry_fromJson_toJson os]

/-- C9: serializing a `DocumentResult` to the output artifact and
re-parsing the artifact yields the original result, field for field. -/
theorem claim_C9 (r : DocumentResult) :
    DocumentResult.fromJson r.toJson = some r := by
  obtain ⟨fn, m, sd, pi⟩ := r
  simp [DocumentResult.toJson, DocumentResult.fromJson,
    resultMeta_fromJson_toJson, structureData_fromJson_toJson,
    processingInfo_fromJson_toJson]

/-- Spans of a block whose trimmed text is non-empty — the only spans whose
font data the scan of `_process_text_block` ever inspects. -/
def nonEmptySpans (lines : List (List Span)) : List Span :=
  lines.flatten.filter fun sp => pyStrip sp.text != ""

/-- One step of the primary-span selection exactly as the claim words it:
strict `>` keeps the earliest maximal span. -/
def claimedStep (acc : Option Span) (sp : Span) : Option Span :=
  match acc with
  | none => some sp
  | some m => if sp.size > m.size then some sp else acc

/-- Modelled from the claim words (for comparison with the code): the span
with the largest size among the given spans in encounter order, ties broken
in favor of the earliest such span. -/
def claimedPrimarySpan (spans : List Span) : Option Span :=
  spans.foldl claimedStep none

/-- A span stripping to empty text leaves the scan state untouched. -/
theorem scanStep_skip (st : ScanState) (sp : Span)
    (h : pyStrip sp.text = "") : scanStep st sp = st := by
  simp [scanStep, h]

/-- The scan of `_process_text_block` only sees the non-empty spans. -/
theorem foldl_scanStep_filter (spans : List Span) :
    ∀ st : ScanState,
      spans.foldl scanStep st =
        (spans.filter fun sp => pyStrip sp.text != "").foldl scanStep st := by
  induction spans with
  | nil => intro st; rfl
  | cons sp rest ih =>
    intro st
    by_cases h : pyStrip sp.text = ""
    · simp [List.filter_cons, h, scanStep_skip st sp h, ih]
    · simp [List.filter_cons, h, ih]

/-- Invariant of the primary-span fold: once the scan state carries the data
of a candidate span `m`, the code fold and the claimed fold stay in step on
any run of non-empty spans. -/
theorem scan_primary_aux (spans : List Span) :
    ∀ (st : ScanState) (m : Span),
      (∀ sp ∈ spans, pyStrip sp.text ≠ "") →
      st.primary_size = m.size → st.primary_font = some m.font →
      st.primary_flags = m.flags →
      ∃ m', spans.foldl claimedStep (some m) = some m' ∧
        (spans.foldl scanStep st).primary_size = m'.size ∧
        (spans.foldl scanStep st).primary_font = some m'.font ∧
        (spans.foldl scanStep st).primary_flags = m'.flags := by
  induction spans with
  | nil =>
    intro st m _ h1 h2 h3
    exact ⟨m, rfl, h1, h2, h3⟩
  | cons sp rest ih =>
    intro st m h h1 h2 h3
    have hsp : pyStrip sp.text ≠ "" := h sp (by simp)
    have hrest : ∀ x ∈ rest, pyStrip x.text ≠ "" := fun x hx =>
      h x (by simp [hx])
    simp only [List.foldl_cons]
    by_cases hgt : sp.size > m.size
    · have hstep : scanStep st sp =
          ⟨st.parts ++ [pyStrip sp.text], sp.size, some sp.font, sp.flags⟩ := by
        rw [scanStep]
        simp [hsp, h1, hgt]
      have hcl : claimedStep (some m) sp = some sp := by
        simp [claimedStep, hgt]
      rw [hstep, hcl]
      exact ih _ sp hrest rfl rfl rfl
    · have hstep : scanStep st sp =
          { st with parts := st.parts ++ [pyStrip sp.text] } := by
        rw [scanStep]
        simp [hsp, h1, hgt]
      have hcl : claimedStep (some m) sp = some m := by
        simp [claimedStep, hgt]
      rw [hstep, hcl]
      exact ih _ m hrest h1 h2 h3

/-- On a non-empty run of non-empty, positively sized spans, the scan's
final primary size / font / flags are those of the claimed primary span. -/
theorem scan_primary (spans : List Span) (parts0 : List String)
    (hne : spans ≠ [])
    (hall : ∀ sp ∈ spans, pyStrip sp.text ≠ "")
    (hpos : ∀ sp ∈ spans, 0 < sp.size) :
    ∃ m, claimedPrimarySpan spans = some m ∧
      (spans.foldl scanStep ⟨parts0, 0, none, 0⟩).primary_size = m.size ∧
      (spans.foldl scanStep ⟨parts0, 0, none, 0⟩).primary_font =
        some m.font ∧
      (spans.foldl scanStep ⟨parts0, 0, none, 0⟩).primary_flags =
        m.flags := by
  match spans, hne with
  | sp :: rest, _ =>
    have hsp : pyStrip sp.text ≠ "" := hall sp (by simp)
    have hstep : scanStep ⟨parts0, 0, none, 0⟩ sp =
        ⟨parts0 ++ [pyStrip sp.text], sp.size, some sp.font, sp.flags⟩ := by
      rw [scanStep]
      simp [hsp, hpos sp (by simp)]
    rw [claimedPrimarySpan]
    simp only [List.foldl_cons, hstep]
    exact scan_primary_aux rest _ sp (fun x hx => hall x (by simp [hx]))
      rfl rfl rfl

/-- C4 (amended): whenever `_process_text_block` emits an element, its font
descriptor carries the size and style flags of the first strictly-largest
span among the spans of the block whose trimmed text is non-empty (spans
stripping to empty are skipped by the scan), provided all those spans have
positive size (the scan starts from a sentinel size 0); the font name is
that span's name filtered through the `or "unknown"` fallback, so an empty
font name is emitted as `"unknown"`. -/
theorem claim_C4 (lines : List (List Span)) (bbox : BBox) (pn : Int)
    (fs : FontStats) (sec : Section)
    (hpos : ∀ sp ∈ nonEmptySpans lines, 0 < sp.size)
    (hsec : processTextBlock lines bbox pn fs = some sec) :
    (claimedPrimarySpan (nonEmptySpans lines)).map Span.size =
      some sec.font.size ∧
    (claimedPrimarySpan (nonEmptySpans lines)).map
        (fun sp => if sp.font = "" then "unknown" else sp.font) =
      some sec.font.name ∧
    (claimedPrimarySpan (nonEmptySpans lines)).map Span.flags =
      some sec.font.flags := by
  have hscan : scanBlock lines =
      (nonEmptySpans lines).foldl scanStep ⟨[], 0, none, 0⟩ :=
    foldl_scanStep_filter lines.flatten ⟨[], 0, none, 0⟩
  by_cases hne : nonEmptySpans lines = []
  · exfalso
    rw [hne] at hscan
    simp [processTextBlock, hscan] at hsec
  · have hall : ∀ sp ∈ nonEmptySpans lines, pyStrip sp.text ≠ "" := by
      intro sp hsp
      have := List.of_mem_filter hsp
      simpa using this
    obtain ⟨m, hm, h1, h2, h3⟩ :=
      scan_primary (nonEmptySpans lines) [] hne hall hpos
    rw [← hscan] at h1 h2 h3
    rw [processTextBlock] at hsec
    simp only at hsec
    split at hsec
    · exact absurd hsec (by simp)
    · split at hsec
      · exact absurd hsec (by simp)
      · rw [Option.some_inj] at hsec
        subst hsec
        refine ⟨?_, ?_, ?_⟩ <;> simp only [hm, Option.map_some]
        · exact congrArg some h1.symm
        · refine congrArg some ?_
          rw [h2]
          rfl
        · exact congrArg some h3.symm

/-- C4 counterexample: three concrete blocks on which the claim, as
stated, fails — each forcing one change of the amendment.  First, in a
block whose largest span strips to empty text, the claimed primary span
(largest over all spans seen) has size 20 but the emitted element carries
size 10 of the largest non-empty span.  Second, for a block whose only
span has size 0, that span is the claimed primary (flags 5, font `"F"`)
but the emitted descriptor keeps the scan sentinels, flags 0 and name
`"unknown"`.  Third, for a primary span whose font name is the empty
string, the claim says the element carries `""` but the program emits
`"unknown"`. -/
theorem claim_C4_counterexample :
    (claimedPrimarySpan
        ([[⟨"", 20, 7, "A"⟩, ⟨"hi", 10, 0, "B"⟩]] :
          List (List Span)).flatten).map Span.size = some 20 ∧
    (processTextBlock [[⟨"", 20, 7, "A"⟩, ⟨"hi", 10, 0, "B"⟩]] ⟨0, 0, 1, 1⟩
        1 ⟨5, 6, 7, none, none⟩).map (fun s => s.font.size) = some 10 ∧
    (claimedPrimarySpan
        ([[⟨"hi", 0, 5, "F"⟩]] : List (List Span)).flatten).map Span.flags
      = some 5 ∧
    (processTextBlock [[⟨"hi", 0, 5, "F"⟩]] ⟨0, 0, 1, 1⟩ 1
        ⟨-10, -9, -8, none, none⟩).map (fun s => s.font.flags) = some 0 ∧
    (processTextBlock [[⟨"hi", 0, 5, "F"⟩]] ⟨0, 0, 1, 1⟩ 1
        ⟨-10, -9, -8, none, none⟩).map (fun s => s.font.name) =
      some "unknown" ∧
    (claimedPrimarySpan
        ([[⟨"hi", 10, 3, ""⟩]] : List (List Span)).flatten).map Span.font
      = some "" ∧
    (processTextBlock [[⟨"hi", 10, 3, ""⟩]] ⟨0, 0, 1, 1⟩ 1
        ⟨-10, -9, -8, none, none⟩).map (fun s => s.font.name) =
      some "unknown" := by
  exact ⟨by decide, by decide, by decide, by decide, by decide, by decide,
    by decide⟩

/-- C4 witness: on a one-span block the amended statement instantiates —
the emitted font size 10 is that of the claimed primary span over the
non-empty spans. -/
theorem claim_C4_witness :
    (claimedPrimarySpan (nonEmptySpans [[⟨"hi", 10, 0, "B"⟩]])).map
      Span.size = some 10 :=
  (claim_C4 [[⟨"hi", 10, 0, "B"⟩]] ⟨0, 0, 1, 1⟩ 1 ⟨5, 6, 7, none, none⟩
    ⟨"heading", "hi", 1, ⟨0, 0, 1, 1⟩, ⟨"B", 10, 0, 0⟩, some 1⟩
    (by decide) (by decide)).1

end PdfProc
